import Mathlib

/-
Verification of the pdpipe specification against the repository code.

The data model is a shallow embedding of pandas-shaped tables: a table is a
row index together with named columns of cell values; a label series is a
list of (row index, value) pairs.  Stage snippets present in the repository
documentation (Schematize, DropLabelsByValues, EncodeLabel) are embedded
directly from that code; the engine parts whose implementation files are not
part of this source tree (the stage application core, the cond and cq
modules, the FitOnly wrapper and the df fly-handle) are modelled from the
specification, as marked in their doc comments.
-/

/-- Cell values appearing in a table: integers, booleans, strings, and the
missing-value marker. -/
inductive PValue where
| vInt (n : Int)
| vBool (b : Bool)
| vStr (s : String)
| vNone
deriving DecidableEq, Repr

/-- A label series: a list of (row index, value) pairs, aligned to a table
index. -/
abbrev PSeries := List (Nat × PValue)

/-- A table: a row index together with named columns, each column holding a
list of cell values aligned to the index. -/
structure DataFrame where
  index : List Nat
  cols : List (String × List PValue)
deriving DecidableEq, Repr

/-- The ordered list of column labels of a table. -/
def DataFrame.columns (df : DataFrame) : List String :=
  df.cols.map Prod.fst

/-- The data of the column with the given label (first match; empty if the
label is absent, which stage preconditions rule out where it matters). -/
def DataFrame.colData (df : DataFrame) (lbl : String) : List PValue :=
  match df.cols.find? (fun c => c.fst == lbl) with
  | some c => c.snd
  | none => []

/-- Column selection in a given order, as in the pandas expression
df[labels]: keeps exactly the requested columns, in the requested order,
dropping all others. -/
def DataFrame.selectCols (df : DataFrame) (labels : List String) : DataFrame :=
  { index := df.index, cols := labels.map (fun l => (l, df.colData l)) }

/-- Dropping the columns with the given labels, keeping the rest in their
original order. -/
def DataFrame.dropCols (df : DataFrame) (labels : List String) : DataFrame :=
  { index := df.index, cols := df.cols.filter (fun c => !(labels.contains c.fst)) }

/-- Whether any cell of the table is the missing-value marker. -/
def DataFrame.hasMissingValues (df : DataFrame) : Bool :=
  df.cols.any (fun c => c.snd.contains PValue.vNone)

/-- The error taxonomy of the pdpipe exceptions module, plus a constructor
for errors propagated unchanged from external libraries (for example an
encoder rejecting unseen categories). -/
inductive PdError where
| failedPrecondition (msg : String)
| failedPostcondition (msg : String)
| failedCondition (msg : String)
| unfittedPipelineStage (msg : String)
| pipelineInitialization (msg : String)
| unexpectedPipelineMethodCall (msg : String)
| external (msg : String)
deriving DecidableEq, Repr

/-- Modelled from the spec: the single-table pipeline-stage contract of the
core module (whose implementation file is not part of this source tree).  A
stage carries a precondition, an optional postcondition, an exception
message, and its fit-transform and transform implementations; the learned
parameters have type sigma and the fit state is an Option of them (none
meaning unfitted). -/
structure StageCore (σ : Type) where
  prec : DataFrame → Bool
  post : Option (DataFrame → Bool)
  exmsg : String
  fitTransformImpl : DataFrame → σ × DataFrame
  transformImpl : σ → DataFrame → DataFrame

variable {σ : Type}

/-- Modelled from the spec: the postcondition gate of the core module; a
configured postcondition that fails on the output always raises
FailedPostconditionError. -/
def StageCore.postCheck (s : StageCore σ) (st : Option σ) (out : DataFrame) :
    Except PdError (Option σ × DataFrame) :=
  match s.post with
  | some pc => if pc out then .ok (st, out) else .error (.failedPostcondition s.exmsg)
  | none => .ok (st, out)

/-- Modelled from the spec: the transformation step chosen by apply — the
fit-transform implementation when the stage is unfitted, the transform
implementation with the learned parameters when it is fitted. -/
def StageCore.rawStep (s : StageCore σ) (st : Option σ) (t : DataFrame) :
    Option σ × DataFrame :=
  match st with
  | none =>
    let pr := s.fitTransformImpl t
    (some pr.fst, pr.snd)
  | some p => (some p, s.transformImpl p t)

/-- Modelled from the spec: the primary apply entry point of the core
module.  The precondition is checked first; on failure, effective exraise
true raises FailedPreconditionError with the configured message and exraise
false returns the input unchanged.  Otherwise apply routes to fit-transform
or transform according to the fit state and then checks the postcondition. -/
def StageCore.apply (s : StageCore σ) (st : Option σ) (exraise : Bool)
    (t : DataFrame) : Except PdError (Option σ × DataFrame) :=
  if s.prec t then
    let pr := s.rawStep st t
    s.postCheck pr.fst pr.snd
  else if exraise then .error (.failedPrecondition s.exmsg)
  else .ok (st, t)

/-- Modelled from the spec: fit_transform unconditionally refits the stage
against the given input and returns the transformed result, under the same
precondition and postcondition gates as apply. -/
def StageCore.fitTransform (s : StageCore σ) (st : Option σ) (exraise : Bool)
    (t : DataFrame) : Except PdError (Option σ × DataFrame) :=
  if s.prec t then
    let pr := s.fitTransformImpl t
    s.postCheck (some pr.fst) pr.snd
  else if exraise then .error (.failedPrecondition s.exmsg)
  else .ok (st, t)

/-- Modelled from the spec: transform applies already-fitted parameters
without altering them and raises UnfittedPipelineStageError if the stage has
never been fitted. -/
def StageCore.transform (s : StageCore σ) (st : Option σ) (exraise : Bool)
    (t : DataFrame) : Except PdError (Option σ × DataFrame) :=
  match st with
  | none => .error (.unfittedPipelineStage s.exmsg)
  | some p =>
    if s.prec t then s.postCheck (some p) (s.transformImpl p t)
    else if exraise then .error (.failedPrecondition s.exmsg)
    else .ok (some p, t)

/-- The ColDrop basic stage, embedded from the documentation snippet of its
constructor (precondition: all targeted columns present; postcondition: none
of the targeted columns remain; transformation: drop them). -/
def ColDrop (columns : List String) : StageCore Unit :=
  { prec := fun t => columns.all (fun l => t.columns.contains l)
  , post := some (fun out => columns.all (fun l => !(out.columns.contains l)))
  , exmsg := "ColDrop: required columns missing from input dataframe."
  , fitTransformImpl := fun t => ((), t.dropCols columns)
  , transformImpl := fun _ t => t.dropCols columns }

/-- Modelled from the spec: the X-y pipeline-stage contract of the core
module (implementation file not part of this source tree).  The
precondition receives both the table and the optional label series; the
single-table transform path and the X-y fit-transform and transform paths
are separate implementations, and the core dispatches on the presence of y
and on the fit state. -/
structure XyStage (σ : Type) where
  prec : DataFrame → Option PSeries → Bool
  exmsg : String
  transformX : DataFrame → Except PdError DataFrame
  fitTransformXy : DataFrame → PSeries → Except PdError (σ × DataFrame × PSeries)
  transformXy : σ → DataFrame → PSeries → Except PdError (DataFrame × PSeries)

/-- Modelled from the spec: the apply entry point for X-y-capable stages.
The precondition is checked first, with the same exraise handling as for
single-table stages (failure with exraise false returns X and y unchanged).
When it holds, exactly one transformation path is invoked: the X-y path when
y is present (routed by fit state), the single-table path when y is absent. -/
def XyStage.apply (s : XyStage σ) (st : Option σ) (exraise : Bool)
    (X : DataFrame) (y : Option PSeries) :
    Except PdError (Option σ × DataFrame × Option PSeries) :=
  if s.prec X y then
    match y with
    | some ys =>
      match st with
      | none => (s.fitTransformXy X ys).map (fun r => (some r.1, r.2.1, some r.2.2))
      | some p => (s.transformXy p X ys).map (fun r => (some p, r.1, some r.2))
    | none => (s.transformX X).map (fun X2 => (st, X2, none))
  else if exraise then .error (.failedPrecondition s.exmsg)
  else .ok (st, X, y)

/-- The pandas Series.between test (inclusive on both ends) for the integer
cell values used by the label-dropping stage; false on non-numeric cells. -/
def pvBetween : PValue → Int × Int → Bool
| .vInt n, r => decide (r.fst ≤ n) && decide (n ≤ r.snd)
| _, _ => false

/-- The body of DropLabelsByValues._transform_Xy, embedded from the source
snippet: the four selection modes are tried in order (in_set, in_ranges,
not_in_set, not_in_ranges) and a PipelineInitializationError is raised when
none is given.  Note that the not_in_set branch of the source assigns the
boolean membership series itself as the new label series, with no row
selection. -/
def dropLabelsXy (inSet : Option (List PValue)) (inRanges : Option (List (Int × Int)))
    (notInSet : Option (List PValue)) (notInRanges : Option (List (Int × Int)))
    (X : DataFrame) (y : PSeries) : Except PdError (DataFrame × PSeries) :=
  match inSet with
  | some s => .ok (X, y.filter (fun iv => !(s.contains iv.snd)))
  | none =>
    match inRanges with
    | some rs => .ok (X, y.filter (fun iv => !(rs.any (fun r => pvBetween iv.snd r))))
    | none =>
      match notInSet with
      | some s => .ok (X, y.map (fun iv => (iv.fst, PValue.vBool (s.contains iv.snd))))
      | none =>
        match notInRanges with
        | some rs => .ok (X, y.filter (fun iv => rs.any (fun r => pvBetween iv.snd r)))
        | none =>
          .error (.pipelineInitialization
            "DropLabelsByValues: No drop conditions specified.")

/-- The DropLabelsByValues stage, embedded from the source snippet: its
precondition holds exactly when y is present, its single-table transform
path raises UnexpectedPipelineMethodCallError, and being a transform-only
stage its fit-transform path delegates to the same X-y transformation. -/
def DropLabelsByValues (inSet : Option (List PValue))
    (inRanges : Option (List (Int × Int))) (notInSet : Option (List PValue))
    (notInRanges : Option (List (Int × Int))) : XyStage Unit :=
  { prec := fun _ y => y.isSome
  , exmsg := "DropLabelsByValues: precondition failed, y is missing."
  , transformX := fun _ => .error (.unexpectedPipelineMethodCall
      "DropLabelsByValues._transform() is not expected to be called!")
  , fitTransformXy := fun X ys =>
      (dropLabelsXy inSet inRanges notInSet notInRanges X ys).map
        (fun r => ((), r.fst, r.snd))
  , transformXy := fun _ X ys => dropLabelsXy inSet inRanges notInSet notInRanges X ys }

/-- Modelled from the spec: the external label encoder used by EncodeLabel
(the machine-learning toolkit is a third-party boundary dependency).  Its
classes are the distinct integer label values in sorted order. -/
def leClasses (y : PSeries) : List Int :=
  (((y.map Prod.snd).filterMap
    (fun v => match v with | .vInt n => some n | _ => none)).eraseDups).mergeSort
    (fun a b => decide (a ≤ b))

/-- Modelled from the spec: encoding a label series by an already-fitted
class list; each seen value maps to its integer code, and a series holding
any unseen label value makes the external encoder raise. -/
def leEncode (classes : List Int) (y : PSeries) : Except PdError PSeries :=
  if (y.map Prod.snd).all
      (fun v => match v with | .vInt n => classes.contains n | _ => false) then
    .ok (y.map (fun iv =>
      (iv.fst,
        match iv.snd with
        | .vInt n => PValue.vInt (Int.ofNat (classes.indexOf n))
        | _ => PValue.vNone)))
  else .error (.external "y contains previously unseen labels")

/-- The EncodeLabel stage, embedded from the source snippet: its
precondition holds exactly when y is present, its single-table transform
path raises UnexpectedPipelineMethodCallError, its fit-transform path fits
the label encoder on y and encodes it, and its transform path encodes with
the already-fitted encoder. -/
def EncodeLabel : XyStage (List Int) :=
  { prec := fun _ y => y.isSome
  , exmsg := "EncodeLabel: precondition failed, y is missing."
  , transformX := fun _ => .error (.unexpectedPipelineMethodCall
      "EncodeLabel._transform() is not expected to be called!")
  , fitTransformXy := fun X ys =>
      (leEncode (leClasses ys) ys).map (fun py => (leClasses ys, X, py))
  , transformXy := fun cls X ys => (leEncode cls ys).map (fun py => (X, py)) }

/-- The fit state of the Schematize stage, embedded from the source snippet:
the adaptive flag (columns given as None), the column list (absent until an
adaptive stage is fitted) and the fitted flag. -/
structure SchematizeState where
  adaptive : Bool
  columns : Option (List String)
  isFitted : Bool
deriving DecidableEq, Repr

/-- The Schematize constructor, embedded from the source snippet: a None
columns argument yields the adaptive, fittable variant; a concrete list
yields the stateless variant. -/
def Schematize (columns : Option (List String)) : SchematizeState :=
  match columns with
  | none => { adaptive := true, columns := none, isFitted := false }
  | some cs => { adaptive := false, columns := some cs, isFitted := false }

/-- Schematize._prec, embedded from the source snippet: trivially true for
an adaptive, unfitted stage; otherwise all configured columns must be
present in the input. -/
def schematizePrec (s : SchematizeState) (df : DataFrame) : Bool :=
  if s.adaptive && !s.isFitted then true
  else (s.columns.getD []).all (fun l => df.columns.contains l)

/-- The exception message of a Schematize stage, embedded from the source
snippet constructor. -/
def schematizeExmsg (s : SchematizeState) : String :=
  if s.adaptive then "Learnable schematize failed in precondition unexpectedly!"
  else "Not all required columns found in input dataframe!"

/-- Schematize._transform, embedded from the source snippet: reindex the
input to the configured or learned column list. -/
def schematizeTransformOp (s : SchematizeState) (df : DataFrame) : DataFrame :=
  df.selectCols (s.columns.getD [])

/-- Schematize._fit_transform, embedded from the source snippet: the
adaptive variant records the input column list, marks the stage fitted and
returns the input unchanged; the stateless variant just reindexes. -/
def schematizeFitTransformOp (s : SchematizeState) (df : DataFrame) :
    SchematizeState × DataFrame :=
  if s.adaptive then
    ({ s with columns := some df.columns, isFitted := true }, df)
  else (s, df.selectCols (s.columns.getD []))

/-- Modelled from the spec: the apply routing of the core module for the
Schematize stage — precondition gate with exraise handling, then
fit-transform when unfitted and transform when fitted. -/
def schematizeApply (s : SchematizeState) (exraise : Bool) (df : DataFrame) :
    Except PdError (SchematizeState × DataFrame) :=
  if schematizePrec s df then
    if s.isFitted then .ok (s, schematizeTransformOp s df)
    else .ok (schematizeFitTransformOp s df)
  else if exraise then .error (.failedPrecondition (schematizeExmsg s))
  else .ok (s, df)

/-- Modelled from the spec: the boolean condition sublanguage of the cond
module (implementation file not part of this source tree): built-in
conditions over column presence and missing values, composed by AND, OR,
XOR and NOT. -/
inductive Cond where
| hasAllColumns (labels : List String)
| hasNoMissingValues
| cAnd (c1 c2 : Cond)
| cOr (c1 c2 : Cond)
| cXor (c1 c2 : Cond)
| cNot (c : Cond)
deriving DecidableEq, Repr

/-- Modelled from the spec: condition evaluation — calling a condition with
a table returns a boolean, and composite conditions evaluate both operands
against the same input and combine with two-valued boolean semantics. -/
def Cond.eval : Cond → DataFrame → Bool
| .hasAllColumns ls, df => ls.all (fun l => df.columns.contains l)
| .hasNoMissingValues, df => !df.hasMissingValues
| .cAnd a b, df => a.eval df && b.eval df
| .cOr a b, df => a.eval df || b.eval df
| .cXor a b, df => Bool.xor (a.eval df) (b.eval df)
| .cNot a, df => !(a.eval df)

/-- Modelled from the spec: a ColumnQualifier of the cq module
(implementation file not part of this source tree): a function from a table
to a list of column labels together with the label list cached at fit time
(none while unfitted). -/
structure ColumnQualifier where
  func : DataFrame → List String
  fitted : Option (List String)

/-- Modelled from the spec: ColumnQualifier.fit_transform computes the label
list from the given table, caches it for future reuse and returns it. -/
def ColumnQualifier.fitTransform (q : ColumnQualifier) (df : DataFrame) :
    ColumnQualifier × List String :=
  ({ q with fitted := some (q.func df) }, q.func df)

/-- Modelled from the spec: ColumnQualifier.transform is valid only once
fit and returns the cached label list regardless of the table passed. -/
def ColumnQualifier.transform (q : ColumnQualifier) (df : DataFrame) :
    Except PdError (List String) :=
  match q.fitted with
  | some l => .ok l
  | none => .error (.unfittedPipelineStage "ColumnQualifier is not fitted.")

/-- Modelled from the spec: calling a fittable qualifier fit-transforms on
the first call and replays the cached label list on subsequent calls. -/
def ColumnQualifier.callCQ (q : ColumnQualifier) (df : DataFrame) :
    ColumnQualifier × List String :=
  match q.fitted with
  | none => q.fitTransform df
  | some l => (q, l)

/-- Modelled from the spec: the StartWith built-in qualifier, matching the
column labels that start with the given string. -/
def StartWith (pre : String) : ColumnQualifier :=
  { func := fun df => df.columns.filter (fun l => pre.data.isPrefixOf l.data)
  , fitted := none }

/-- Modelled from the spec: the FitOnly stage wrapper (implementation file
not part of this source tree): its own fit-transform applies the wrapped
stage, and every subsequent transform-only application returns the input
completely unchanged, regardless of the wrapped stage. -/
def fitOnlyApply (inner : StageCore σ) (st : Option σ) (exraise : Bool)
    (t : DataFrame) : Except PdError (Option σ × DataFrame) :=
  match st with
  | none => inner.fitTransform none exraise t
  | some p => .ok (some p, t)

/-- Modelled from the spec: a pandas DataFrame method honouring an inplace
keyword, as seen by the caller.  The result pairs the caller-held table
after the call with the value the method call returns: with inplace true the
caller table is replaced by the transformed table and nothing is returned;
with inplace false the caller table is untouched and the transformed table
is returned. -/
def runPandasMethod (f : DataFrame → DataFrame) (inplace : Bool)
    (t : DataFrame) : DataFrame × Option DataFrame :=
  if inplace then (f t, none) else (t, some (f t))

/-- Modelled from the spec: the df fly-handle method-wrapping stage.  The
caller-supplied inplace keyword is always overridden to false, so the
underlying method is invoked out of place even if the caller asked for an
in-place call; the result pairs the caller-held table after the call with
the stage output. -/
def dfMethodStageApply (f : DataFrame → DataFrame) (callerInplace : Bool)
    (t : DataFrame) : DataFrame × DataFrame :=
  let r := runPandasMethod f false t
  (r.fst, r.snd.getD t)

/-- The built-in stage applications embedded in this development, used to
state the frame property that no built-in stage mutates its input. -/
inductive BuiltinApp where
| schematizeApp (s : SchematizeState)
| colDropApp (cols : List String)
| dfMethodApp (f : DataFrame → DataFrame) (inplace : Bool)
| condValidatorApp (c : Cond)

/-- Application of a built-in stage with the caller-held table tracked
explicitly: the first component is the caller table after the call and the
second the stage outcome.  All embedded stage bodies are out-of-place
expressions over the input (as in the source, which never uses in-place
pandas operations), and the df method wrapper goes through the
inplace-honouring pandas model with the keyword overridden. -/
def BuiltinApp.applyTracked : BuiltinApp → Bool → DataFrame →
    DataFrame × Except PdError DataFrame
| .schematizeApp s, e, t => (t, (schematizeApply s e t).map Prod.snd)
| .colDropApp cols, e, t => (t, ((ColDrop cols).apply none e t).map Prod.snd)
| .dfMethodApp f ip, _, t =>
  let r := dfMethodStageApply f ip t
  (r.fst, .ok r.snd)
| .condValidatorApp c, e, t =>
  (t, if c.eval t then .ok t
      else if e then .error (.failedCondition "ConditionValidator: condition failed.")
      else .ok t)

/-- A table with columns alec, alex, foo, as in the qualifier fit-freeze
example of the specification. -/
def dfAlec : DataFrame :=
  { index := [1, 2]
  , cols := [("alec", [PValue.vInt 1, PValue.vInt 2]),
             ("alex", [PValue.vInt 3, PValue.vInt 4]),
             ("foo", [PValue.vInt 5, PValue.vInt 6])] }

/-- A table with columns alec, alex, apple, foo, seen after fitting in the
qualifier fit-freeze example. -/
def dfApple : DataFrame :=
  { index := [1, 2]
  , cols := [("alec", [PValue.vInt 1, PValue.vInt 2]),
             ("alex", [PValue.vInt 3, PValue.vInt 4]),
             ("apple", [PValue.vInt 7, PValue.vInt 8]),
             ("foo", [PValue.vInt 5, PValue.vInt 6])] }

/-- A two-column table with columns a and c, from the Schematize example. -/
def dfAC : DataFrame :=
  { index := [1, 2]
  , cols := [("a", [PValue.vInt 2, PValue.vInt 3]),
             ("c", [PValue.vInt 8, PValue.vInt 9])] }

/-- A three-column table with columns a, b and c, from the Schematize
example. -/
def dfABC : DataFrame :=
  { index := [1, 2]
  , cols := [("a", [PValue.vInt 2, PValue.vInt 3]),
             ("b", [PValue.vInt 4, PValue.vInt 6]),
             ("c", [PValue.vInt 8, PValue.vInt 9])] }

/-- A table with columns num and char, from the FitOnly example of the
documentation. -/
def dfNum : DataFrame :=
  { index := [1, 2]
  , cols := [("num", [PValue.vInt 8, PValue.vInt 5]),
             ("char", [PValue.vStr "a", PValue.vStr "b"])] }

/-- A second table that also has the column num, fed to the already-fitted
FitOnly wrapper. -/
def dfNum2 : DataFrame :=
  { index := [3, 4]
  , cols := [("num", [PValue.vInt 1, PValue.vInt 2]),
             ("char", [PValue.vStr "c", PValue.vStr "d"])] }

/-- A table without the column Name, failing the ColDrop Name
precondition. -/
def dfNoName : DataFrame :=
  { index := [0], cols := [("Age", [PValue.vInt 23])] }

/-- A table holding columns foo and bar plus a third column with one missing
value, from the condition boolean-algebra example. -/
def dfFooBarMiss : DataFrame :=
  { index := [1, 2]
  , cols := [("foo", [PValue.vInt 8, PValue.vInt 5]),
             ("bar", [PValue.vInt 9, PValue.vInt 2]),
             ("baz", [PValue.vNone, PValue.vInt 1])] }

/-- The same-shaped table with no missing values. -/
def dfFooBarOk : DataFrame :=
  { index := [1, 2]
  , cols := [("foo", [PValue.vInt 8, PValue.vInt 5]),
             ("bar", [PValue.vInt 9, PValue.vInt 2]),
             ("baz", [PValue.vInt 7, PValue.vInt 1])] }

/-- A feature table with no columns, used where only the label series
matters. -/
def dfEmptyX : DataFrame := { index := [0, 1, 2], cols := [] }

/-- The label series with values 1, 2, 3 at indices 0, 1, 2. -/
def yLabels123 : PSeries := [(0, PValue.vInt 1), (1, PValue.vInt 2), (2, PValue.vInt 3)]

/-- A stage whose precondition always holds and whose configured
postcondition always fails, exercising the postcondition gate. -/
def postFailStage : StageCore Unit :=
  { prec := fun _ => true
  , post := some (fun _ => false)
  , exmsg := "postFailStage failed"
  , fitTransformImpl := fun t => ((), t)
  , transformImpl := fun _ t => t }

/-- An already-fitted column qualifier with cached label list x. -/
def fittedCQ : ColumnQualifier :=
  { func := fun _ => [], fitted := some ["x"] }

/-- The HasAllColumns foo bar condition of the boolean-algebra example. -/
def condFooBar : Cond := Cond.hasAllColumns ["foo", "bar"]

/-- The columns of a selection are exactly the requested labels. -/
theorem selectCols_columns (df : DataFrame) (labels : List String) :
    (df.selectCols labels).columns = labels := by
  induction labels with
  | nil => rfl
  | cons h tl ih =>
    simp [DataFrame.selectCols, DataFrame.columns] at ih ⊢
    exact ih

/-- C1: no built-in stage mutates its input table: the caller-held table
after any tracked built-in stage application is structurally equal to its
pre-call state, and the df method-wrapping handle returns the out-of-place
result of the wrapped method while ignoring the caller-supplied inplace
keyword. -/
theorem builtin_stages_no_mutation :
    (∀ (s : BuiltinApp) (e : Bool) (t : DataFrame), (s.applyTracked e t).fst = t) ∧
    (∀ (f : DataFrame → DataFrame) (ip : Bool) (t : DataFrame),
        dfMethodStageApply f ip t = (t, f t)) := by
  constructor
  · intro s e t
    cases s <;> rfl
  · intro f ip t
    rfl

/-- C2: for a never-fitted stage, apply behaves exactly as fit_transform;
for a fitted stage, apply behaves exactly as transform; hence applying twice
from the unfitted state yields the same pair of results as fit_transform
followed by transform. -/
theorem apply_routing_equiv (τ : Type) (s : StageCore τ) (e1 e2 : Bool)
    (t1 t2 : DataFrame) :
    s.apply none e1 t1 = s.fitTransform none e1 t1 ∧
    (∀ p : τ, s.apply (some p) e2 t2 = s.transform (some p) e2 t2) ∧
    (∀ (p : τ) (r1 : DataFrame), s.apply none e1 t1 = .ok (some p, r1) →
      (s.apply none e1 t1, s.apply (some p) e2 t2)
        = (s.fitTransform none e1 t1, s.transform (some p) e2 t2)) := by
  have h1 : s.apply none e1 t1 = s.fitTransform none e1 t1 := by
    simp [StageCore.apply, StageCore.fitTransform, StageCore.rawStep]
  have h2 : ∀ p : τ, s.apply (some p) e2 t2 = s.transform (some p) e2 t2 := by
    intro p
    simp [StageCore.apply, StageCore.transform, StageCore.rawStep]
  exact ⟨h1, h2, fun p r1 _ => by rw [h1, h2 p]⟩

/-- Witness for C2 at the ColDrop num stage on concrete tables. -/
theorem apply_routing_equiv_witness :
    ((ColDrop ["num"]).apply none true dfNum, (ColDrop ["num"]).apply (some ()) true dfNum2)
      = ((ColDrop ["num"]).fitTransform none true dfNum,
         (ColDrop ["num"]).transform (some ()) true dfNum2) :=
  (apply_routing_equiv Unit (ColDrop ["num"]) true true dfNum dfNum2).2.2 ()
    (dfNum.dropCols ["num"]) (by rfl)

/-- C3: a fitted column qualifier returns the label list cached at fit time
for every table passed; concretely, a fittable StartWith a qualifier fit on
a table with columns alec, alex, foo yields alec and alex, and calling the
already-fit qualifier on a table that also has an apple column still yields
exactly alec and alex. -/
theorem cq_fit_freeze :
    (∀ (q : ColumnQualifier) (l : List String) (t : DataFrame),
        q.fitted = some l → q.transform t = .ok l ∧ q.callCQ t = (q, l)) ∧
    ((StartWith "a").callCQ dfAlec).snd = ["alec", "alex"] ∧
    ((((StartWith "a").callCQ dfAlec).fst).callCQ dfApple).snd = ["alec", "alex"] := by
  refine ⟨?_, rfl, rfl⟩
  intro q l t h
  obtain ⟨f, ft⟩ := q
  have h2 : ft = some l := h
  subst h2
  exact ⟨rfl, rfl⟩

/-- Witness for C3: the cached label list of an already-fitted qualifier is
replayed on a fresh table. -/
theorem cq_fit_freeze_witness :
    fittedCQ.transform dfApple = .ok ["x"] ∧ fittedCQ.callCQ dfApple = (fittedCQ, ["x"]) :=
  cq_fit_freeze.1 fittedCQ ["x"] dfApple rfl

/-- C4: when a stage precondition fails on the input, effective exraise true
makes the application raise FailedPreconditionError carrying the stage
exception message, and effective exraise false makes it return the input
unchanged — for single-table stages the table, for X-y stages the (X, y)
pair — as a complete no-op. -/
theorem prec_failure_handling :
    (∀ (τ : Type) (s : StageCore τ) (st : Option τ) (t : DataFrame),
        s.prec t = false →
          s.apply st true t = .error (.failedPrecondition s.exmsg) ∧
          s.apply st false t = .ok (st, t)) ∧
    (∀ (τ : Type) (s : XyStage τ) (st : Option τ) (X : DataFrame) (y : Option PSeries),
        s.prec X y = false →
          s.apply st true X y = .error (.failedPrecondition s.exmsg) ∧
          s.apply st false X y = .ok (st, X, y)) := by
  constructor
  · intro τ s st t h
    constructor <;> simp [StageCore.apply, h]
  · intro τ s st X y h
    constructor <;> simp [XyStage.apply, h]

/-- Witness for C4 at ColDrop Name on a table without a Name column and at
an X-y stage applied without a label series. -/
theorem prec_failure_handling_witness :
    ((ColDrop ["Name"]).apply none true dfNoName
        = .error (.failedPrecondition (ColDrop ["Name"]).exmsg) ∧
      (ColDrop ["Name"]).apply none false dfNoName = .ok (none, dfNoName)) ∧
    ((DropLabelsByValues none none none none).apply none true dfEmptyX none
        = .error (.failedPrecondition (DropLabelsByValues none none none none).exmsg) ∧
      (DropLabelsByValues none none none none).apply none false dfEmptyX none
        = .ok (none, dfEmptyX, none)) :=
  ⟨prec_failure_handling.1 Unit (ColDrop ["Name"]) none dfNoName (by rfl),
   prec_failure_handling.2 Unit (DropLabelsByValues none none none none) none dfEmptyX none
     (by rfl)⟩

/-- C5: for Schematize with columns None, the precondition is true for
every table before fitting; the first application records the input column
list, marks the stage fitted and returns the input unchanged; every later
application reindexes its input to exactly the learned column list in the
learned order (dropping other columns) when all learned columns are
present, and fails the stage precondition when any learned column is
absent. -/
theorem schematize_learns_once :
    (∀ df : DataFrame, schematizePrec (Schematize none) df = true) ∧
    (∀ (e : Bool) (df : DataFrame),
        schematizeApply (Schematize none) e df =
          .ok ({ adaptive := true, columns := some df.columns, isFitted := true }, df)) ∧
    (∀ (L : List String) (e : Bool) (df : DataFrame),
        L.all (fun l => df.columns.contains l) = true →
          schematizeApply { adaptive := true, columns := some L, isFitted := true } e df =
            .ok ({ adaptive := true, columns := some L, isFitted := true },
              df.selectCols L) ∧
          (df.selectCols L).columns = L) ∧
    (∀ (L : List String) (e : Bool) (df : DataFrame),
        L.all (fun l => df.columns.contains l) = false →
          schematizeApply { adaptive := true, columns := some L, isFitted := true } e df =
            (if e then
              .error (.failedPrecondition (schematizeExmsg
                { adaptive := true, columns := some L, isFitted := true }))
             else .ok ({ adaptive := true, columns := some L, isFitted := true }, df))) := by
  refine ⟨fun df => rfl, fun e df => rfl, ?_, ?_⟩
  · intro L e df h
    have hp : schematizePrec { adaptive := true, columns := some L, isFitted := true } df
        = true := h
    refine ⟨?_, selectCols_columns df L⟩
    unfold schematizeApply
    rw [hp]
    rfl
  · intro L e df h
    have hp : schematizePrec { adaptive := true, columns := some L, isFitted := true } df
        = false := h
    unfold schematizeApply
    rw [hp]
    rfl

/-- Witness for C5: fitting on the two-column a, c table returns it
unchanged with columns a, c learned, and the fitted stage applied to the
three-column a, b, c table returns only columns a and c in that order. -/
theorem schematize_learns_once_witness :
    schematizeApply (Schematize none) true dfAC =
      .ok ({ adaptive := true, columns := some dfAC.columns, isFitted := true }, dfAC) ∧
    schematizeApply { adaptive := true, columns := some ["a", "c"], isFitted := true }
        true dfABC =
      .ok ({ adaptive := true, columns := some ["a", "c"], isFitted := true },
        dfABC.selectCols ["a", "c"]) :=
  ⟨schematize_learns_once.2.1 true dfAC,
   (schematize_learns_once.2.2.1 ["a", "c"] true dfABC (by rfl)).1⟩

/-- C6: evaluation of the DropLabelsByValues transformation at concrete
inputs.  The in_set, in_ranges and not_in_ranges modes select rows of y as
the claim states and the no-mode case raises the configuration error, but
the not_in_set mode returns the boolean membership series itself (original
label values replaced by booleans, no row dropped) instead of the rows of y
whose label is in the set — the claimed result differs from the computed
one. -/
theorem dropLabels_notInSet_failing_input :
    dropLabelsXy none none (some [PValue.vInt 2]) none dfEmptyX yLabels123 =
      .ok (dfEmptyX,
        [(0, PValue.vBool false), (1, PValue.vBool true), (2, PValue.vBool false)]) ∧
    dropLabelsXy (some [PValue.vInt 2]) none none none dfEmptyX yLabels123 =
      .ok (dfEmptyX, [(0, PValue.vInt 1), (2, PValue.vInt 3)]) ∧
    dropLabelsXy none (some [(2, 3)]) none none dfEmptyX yLabels123 =
      .ok (dfEmptyX, [(0, PValue.vInt 1)]) ∧
    dropLabelsXy none none none (some [(2, 3)]) dfEmptyX yLabels123 =
      .ok (dfEmptyX, [(1, PValue.vInt 2), (2, PValue.vInt 3)]) ∧
    dropLabelsXy none none none none dfEmptyX yLabels123 =
      .error (.pipelineInitialization "DropLabelsByValues: No drop conditions specified.") ∧
    ([(0, PValue.vBool false), (1, PValue.vBool true), (2, PValue.vBool false)] : PSeries)
      ≠ [(1, PValue.vInt 2)] := by
  refine ⟨rfl, rfl, rfl, rfl, rfl, by decide⟩

/-- C7: a configured postcondition that fails on the transformed output
makes the application raise FailedPostconditionError for every value of the
effective exraise setting; only the precondition gate consults exraise. -/
theorem postcondition_always_raises (τ : Type) (s : StageCore τ)
    (pc : DataFrame → Bool) (st : Option τ) (e : Bool) (t : DataFrame)
    (hpost : s.post = some pc) (hprec : s.prec t = true)
    (hfail : pc (s.rawStep st t).snd = false) :
    s.apply st e t = .error (.failedPostcondition s.exmsg) := by
  simp [StageCore.apply, StageCore.postCheck, hpost, hprec, hfail]

/-- Witness for C7: a stage with an always-failing postcondition raises
FailedPostconditionError under both exraise settings. -/
theorem postcondition_always_raises_witness :
    postFailStage.apply none true dfAC = .error (.failedPostcondition "postFailStage failed") ∧
    postFailStage.apply none false dfAC = .error (.failedPostcondition "postFailStage failed") :=
  ⟨postcondition_always_raises Unit postFailStage (fun _ => false) none true dfAC rfl rfl rfl,
   postcondition_always_raises Unit postFailStage (fun _ => false) none false dfAC rfl rfl rfl⟩

/-- C8: the FitOnly wrapper applies the wrapped stage exactly as its own
fit-transform on the first (fitting) application, and every subsequent
application returns the input completely unchanged for every input table,
regardless of the wrapped stage transform; concretely, wrapping ColDrop num
drops the column on the first application and leaves a second table with a
num column untouched. -/
theorem fitOnly_wrapper_semantics :
    (∀ (τ : Type) (inner : StageCore τ) (e : Bool) (t : DataFrame),
        fitOnlyApply inner none e t = inner.fitTransform none e t) ∧
    (∀ (τ : Type) (inner : StageCore τ) (p : τ) (e : Bool) (t : DataFrame),
        fitOnlyApply inner (some p) e t = .ok (some p, t)) ∧
    fitOnlyApply (ColDrop ["num"]) none true dfNum = .ok (some (), dfNum.dropCols ["num"]) ∧
    fitOnlyApply (ColDrop ["num"]) (some ()) true dfNum2 = .ok (some (), dfNum2) := by
  exact ⟨fun _ _ _ _ => rfl, fun _ _ _ _ _ => rfl, rfl, rfl⟩

/-- C9: the condition combinators evaluate both operands against the same
input and combine with two-valued boolean semantics (AND, OR, XOR, NOT);
concretely, for HasAllColumns foo bar and HasNoMissingValues on a table
with both columns and one missing value, AND is false, OR is true and XOR
is true, while on the same-shaped table with no missing values AND is true
and XOR is false. -/
theorem condition_boolean_algebra :
    (∀ (c1 c2 : Cond) (t : DataFrame),
        (Cond.cAnd c1 c2).eval t = (c1.eval t && c2.eval t) ∧
        (Cond.cOr c1 c2).eval t = (c1.eval t || c2.eval t) ∧
        (Cond.cXor c1 c2).eval t = Bool.xor (c1.eval t) (c2.eval t) ∧
        (Cond.cNot c1).eval t = !(c1.eval t)) ∧
    (Cond.cAnd condFooBar Cond.hasNoMissingValues).eval dfFooBarMiss = false ∧
    (Cond.cOr condFooBar Cond.hasNoMissingValues).eval dfFooBarMiss = true ∧
    (Cond.cXor condFooBar Cond.hasNoMissingValues).eval dfFooBarMiss = true ∧
    (Cond.cAnd condFooBar Cond.hasNoMissingValues).eval dfFooBarOk = true ∧
    (Cond.cXor condFooBar Cond.hasNoMissingValues).eval dfFooBarOk = false := by
  exact ⟨fun c1 c2 t => ⟨rfl, rfl, rfl, rfl⟩, rfl, rfl, rfl, rfl, rfl⟩

/-- The only error the DropLabelsByValues transformation can produce is the
missing-configuration one. -/
theorem dropLabelsXy_error_init (i : Option (List PValue))
    (r : Option (List (Int × Int))) (n : Option (List PValue))
    (nr : Option (List (Int × Int))) (X : DataFrame) (y : PSeries) (er : PdError)
    (h : dropLabelsXy i r n nr X y = .error er) :
    er = .pipelineInitialization "DropLabelsByValues: No drop conditions specified." := by
  cases i <;> cases r <;> cases n <;> cases nr <;> simp [dropLabelsXy] at h <;>
    exact h.symm

/-- The only error the modelled label encoder can produce is the
unseen-labels one. -/
theorem leEncode_error_external (cls : List Int) (y : PSeries) (er : PdError)
    (h : leEncode cls y = .error er) :
    er = .external "y contains previously unseen labels" := by
  unfold leEncode at h
  split at h
  · simp at h
  · simp at h
    exact h.symm

/-- C10: for the X-y-only stages DropLabelsByValues and EncodeLabel the
precondition holds exactly when y is present; with a label series supplied,
apply routes entirely through the X-y transformation (so the single-table
transform branch raising UnexpectedPipelineMethodCallError is unreachable
and that error never arises); without a label series the precondition fails
and apply performs precondition-failure handling instead of reaching the
single-table branch. -/
theorem xy_only_stage_safety :
    (∀ (i : Option (List PValue)) (r : Option (List (Int × Int)))
        (n : Option (List PValue)) (nr : Option (List (Int × Int)))
        (X : DataFrame) (y : Option PSeries),
        (DropLabelsByValues i r n nr).prec X y = y.isSome) ∧
    (∀ (X : DataFrame) (y : Option PSeries), EncodeLabel.prec X y = y.isSome) ∧
    (∀ (i : Option (List PValue)) (r : Option (List (Int × Int)))
        (n : Option (List PValue)) (nr : Option (List (Int × Int)))
        (st : Option Unit) (e : Bool) (X : DataFrame) (ys : PSeries),
        (DropLabelsByValues i r n nr).apply st e X (some ys) =
          (dropLabelsXy i r n nr X ys).map (fun rr => (some (), rr.fst, some rr.snd))) ∧
    (∀ (e : Bool) (X : DataFrame) (ys : PSeries),
        EncodeLabel.apply none e X (some ys) =
          (leEncode (leClasses ys) ys).map (fun py => (some (leClasses ys), X, some py))) ∧
    (∀ (cls : List Int) (e : Bool) (X : DataFrame) (ys : PSeries),
        EncodeLabel.apply (some cls) e X (some ys) =
          (leEncode cls ys).map (fun py => (some cls, X, some py))) ∧
    (∀ (i : Option (List PValue)) (r : Option (List (Int × Int)))
        (n : Option (List PValue)) (nr : Option (List (Int × Int)))
        (st : Option Unit) (e : Bool) (X : DataFrame),
        (DropLabelsByValues i r n nr).apply st e X none =
          if e then .error (.failedPrecondition (DropLabelsByValues i r n nr).exmsg)
          else .ok (st, X, none)) ∧
    (∀ (st : Option (List Int)) (e : Bool) (X : DataFrame),
        EncodeLabel.apply st e X none =
          if e then .error (.failedPrecondition EncodeLabel.exmsg)
          else .ok (st, X, none)) ∧
    (∀ (i : Option (List PValue)) (r : Option (List (Int × Int)))
        (n : Option (List PValue)) (nr : Option (List (Int × Int)))
        (st : Option Unit) (e : Bool) (X : DataFrame) (ys : PSeries) (m : String),
        (DropLabelsByValues i r n nr).apply st e X (some ys) ≠
          .error (.unexpectedPipelineMethodCall m)) ∧
    (∀ (st : Option (List Int)) (e : Bool) (X : DataFrame) (ys : PSeries) (m : String),
        EncodeLabel.apply st e X (some ys) ≠
          .error (.unexpectedPipelineMethodCall m)) := by
  have hdl : ∀ (i : Option (List PValue)) (r : Option (List (Int × Int)))
      (n : Option (List PValue)) (nr : Option (List (Int × Int)))
      (st : Option Unit) (e : Bool) (X : DataFrame) (ys : PSeries),
      (DropLabelsByValues i r n nr).apply st e X (some ys) =
        (dropLabelsXy i r n nr X ys).map (fun rr => (some (), rr.fst, some rr.snd)) := by
    intro i r n nr st e X ys
    cases st with
    | none =>
      cases hd : dropLabelsXy i r n nr X ys <;>
        simp [XyStage.apply, DropLabelsByValues, hd, Except.map]
    | some p =>
      cases hd : dropLabelsXy i r n nr X ys <;>
        simp [XyStage.apply, DropLabelsByValues, hd, Except.map]
  have hel1 : ∀ (e : Bool) (X : DataFrame) (ys : PSeries),
      EncodeLabel.apply none e X (some ys) =
        (leEncode (leClasses ys) ys).map (fun py => (some (leClasses ys), X, some py)) := by
    intro e X ys
    cases hd : leEncode (leClasses ys) ys <;>
      simp [XyStage.apply, EncodeLabel, hd, Except.map]
  have hel2 : ∀ (cls : List Int) (e : Bool) (X : DataFrame) (ys : PSeries),
      EncodeLabel.apply (some cls) e X (some ys) =
        (leEncode cls ys).map (fun py => (some cls, X, some py)) := by
    intro cls e X ys
    cases hd : leEncode cls ys <;>
      simp [XyStage.apply, EncodeLabel, hd, Except.map]
  refine ⟨fun i r n nr X y => rfl, fun X y => rfl, hdl, hel1, hel2,
    fun i r n nr st e X => rfl, fun st e X => rfl, ?_, ?_⟩
  · intro i r n nr st e X ys m h
    rw [hdl i r n nr st e X ys] at h
    cases hd : dropLabelsXy i r n nr X ys with
    | ok a => rw [hd] at h; exact Except.noConfusion h
    | error er =>
      rw [hd] at h
      simp [Except.map] at h
      have her := dropLabelsXy_error_init i r n nr X ys er hd
      rw [her] at h
      exact PdError.noConfusion h
  · intro st e X ys m h
    cases st with
    | none =>
      rw [hel1 e X ys] at h
      cases hd : leEncode (leClasses ys) ys with
      | ok a => rw [hd] at h; exact Except.noConfusion h
      | error er =>
        rw [hd] at h
        simp [Except.map] at h
        have her := leEncode_error_external (leClasses ys) ys er hd
        rw [her] at h
        exact PdError.noConfusion h
    | some cls =>
      rw [hel2 cls e X ys] at h
      cases hd : leEncode cls ys with
      | ok a => rw [hd] at h; exact Except.noConfusion h
      | error er =>
        rw [hd] at h
        simp [Except.map] at h
        have her := leEncode_error_external cls ys er hd
        rw [her] at h
        exact PdError.noConfusion h
